import Mathlib

/-
Shallow embedding of the configuration-resolution engine of the everett
library (src/everett/manager.py and src/everett/__init__.py).

Modelling conventions:
* Python strings are Lean `String`s.
* The NO_VALUE sentinel is `Option.none`; a present raw value `v` is `some v`.
* A Python dict of strings is an association list built with dict insertion
  semantics (`dictInsert`): inserting an existing key overwrites in place,
  a new key is appended, so iteration order matches Python dicts.
* Python callables used as parsers are represented by the inductive `ParserRep`,
  covering the cases the engine distinguishes: the builtin `str` (identity),
  the builtin `bool` (string truthiness), `everett.manager.parse_bool`, an
  arbitrary parser that raises a non-ConfigurationError exception (carrying
  its qualname, exception type name and message), and a parser that raises a
  ConfigurationError.
* The process-wide override stack `_CONFIG_OVERRIDE` is passed explicitly
  as a `stack` argument to lookups instead of being global state.
* Exceptions raised by the engine are returned as `LookupResult.error`.
-/

namespace Everett

/-- A Python configuration dict: association list with dict semantics. -/
abbrev PyDict (α : Type) := List (String × α)

/-- Python `d[k]` / `k in d`: first binding for `k`, if any. -/
def dictGet {α : Type} (d : PyDict α) (k : String) : Option α :=
  (d.find? (fun p => p.1 = k)).map (fun p => p.2)

/-- Python `d[k] = v`: overwrite in place if `k` present, else append. -/
def dictInsert {α : Type} (d : PyDict α) (k : String) (v : α) : PyDict α :=
  if d.any (fun p => p.1 = k) then
    d.map (fun p => if p.1 = k then (k, v) else p)
  else
    d ++ [(k, v)]

/-- Build a dict from a list of pairs with Python dict-comprehension
semantics (later duplicate keys overwrite, insertion order kept). -/
def mkDict {α : Type} (pairs : List (String × α)) : PyDict α :=
  pairs.foldl (fun d p => dictInsert d p.1 p.2) []

/-- Python `repr` of a string (single-quote wrapping; escaping not
modelled since no modelled value contains quotes). -/
def pyRepr (s : String) : String := "\x27" ++ s ++ "\x27"

/-- Python `str.upper` (character-list form, since `String.toUpper` does
not reduce in the kernel). -/
def pyUpper (s : String) : String := String.mk (s.data.map Char.toUpper)

/-- Python `str.lower` (character-list form). -/
def pyLower (s : String) : String := String.mk (s.data.map Char.toLower)

/-- Auxiliary for `pyStartsWith` over character lists. -/
def charsStartWith : List Char → List Char → Bool
  | [], _ => true
  | _ :: _, [] => false
  | c :: cs, d :: ds => c = d && charsStartWith cs ds

/-- Python `str.startswith` (character-list form, since
`String.startsWith` does not reduce in the kernel). -/
def pyStartsWith (s pre : String) : Bool := charsStartWith pre.data s.data

/-- `everett.manager.generate_uppercase_key(key, namespace)`. -/
def generate_uppercase_key (key : String) (nspace : Option (List String)) : String :=
  let key1 :=
    match nspace with
    | none => key
    | some parts =>
      -- Python: `if namespace:` (empty list is falsy)
      if parts.isEmpty then key
      else String.intercalate "_" (parts.filter (fun part => part ≠ "") ++ [key])
  pyUpper key1

/-- `everett.manager.get_key_from_envs(envs, key)` for a list of dicts:
value from the first dict containing the key, else NO_VALUE. -/
def get_key_from_envs (envs : List (PyDict String)) (key : String) : Option String :=
  match envs with
  | [] => none
  | env :: rest =>
    match dictGet env key with
    | some v => some v
    | none => get_key_from_envs rest key

/-- The global `_CONFIG_OVERRIDE` stack of override dicts. -/
abbrev OverrideStack := List (PyDict String)

/-- `ConfigOverride.push_config`: append the dict as a layer. -/
def push_config (stack : OverrideStack) (cfg : PyDict String) : OverrideStack :=
  stack ++ [cfg]

/-- `ConfigOverride.pop_config`: remove the last layer; `none` models the
IndexError raised on an empty stack. -/
def pop_config (stack : OverrideStack) : Option OverrideStack :=
  match stack with
  | [] => none
  | _ => some stack.dropLast

/-- A Python parser callable as the engine distinguishes them: the builtin
`str`, the builtin `bool`, `everett.manager.parse_bool`, an arbitrary
parser raising a non-ConfigurationError exception (with its qualname,
exception type name and message), and a parser raising ConfigurationError
(with its message). -/
inductive ParserRep where
  | str
  | bool
  | parseBool
  | failing (pname excType excMsg : String)
  | configRaise (msg : String)
  | keyErrRaise (msg : String)
  deriving DecidableEq

/-- Error taxonomy from everett/__init__.py.  `DetailedConfigurationError`
subclasses carry (msg, namespace, key, parser). -/
inductive ConfigErr where
  | configurationError (msg : String)
  | invalidKeyError (msg : String)
  | configurationMissingError (msg : String) (nspace : Option (List String))
      (key : String) (parser : ParserRep)
  | invalidValueError (msg : String) (nspace : Option (List String))
      (key : String) (parser : ParserRep)
  deriving DecidableEq

end Everett

namespace Everett

/-- A parsed Python value produced by the parsers the engine uses. -/
inductive PyValue where
  | str (s : String)
  | bool (b : Bool)
  deriving DecidableEq

/-- Outcome of applying a Python parser callable to a string. -/
inductive ParseResult where
  | ok (v : PyValue)
  | pyError (excType excMsg : String)
  | configError (e : ConfigErr)
  deriving DecidableEq

/-- Result of `ConfigManager.__call__`: a parsed value, Python `None`
(bound component, unknown key, `raise_error=False`), the NO_VALUE
sentinel, or a raised configuration error. -/
inductive LookupResult where
  | value (v : PyValue)
  | pyNone
  | noValue
  | error (e : ConfigErr)
  deriving DecidableEq

/-- `true_vals` tuple in `parse_bool`. -/
def true_vals : List String := ["t", "true", "yes", "y", "1", "on"]

/-- `false_vals` tuple in `parse_bool`. -/
def false_vals : List String := ["f", "false", "no", "n", "0", "off"]

/-- `everett.manager.parse_bool`: case-insensitive parse of a bool string,
raising ValueError (a non-ConfigurationError) otherwise. -/
def parse_bool (val : String) : ParseResult :=
  let v := pyLower val
  if true_vals.contains v then ParseResult.ok (PyValue.bool true)
  else if false_vals.contains v then ParseResult.ok (PyValue.bool false)
  else ParseResult.pyError "ValueError" (pyRepr v ++ " is not a valid bool value")

/-- `qualname` of each modelled parser callable. -/
def ParserRep.qualname : ParserRep → String
  | ParserRep.str => "str"
  | ParserRep.bool => "bool"
  | ParserRep.parseBool => "everett.manager.parse_bool"
  | ParserRep.failing pname _ _ => pname
  | ParserRep.configRaise _ => "config_raising"
  | ParserRep.keyErrRaise _ => "invalid_key_raising"

/-- Application of a modelled parser callable to a raw string value. -/
def applyParser (p : ParserRep) (val : String) : ParseResult :=
  match p with
  | ParserRep.str => ParseResult.ok (PyValue.str val)
  | ParserRep.bool =>
    -- Python builtin bool on a string: truthiness (non-empty is True)
    ParseResult.ok (PyValue.bool (val ≠ ""))
  | ParserRep.parseBool => parse_bool val
  | ParserRep.failing _ excType excMsg => ParseResult.pyError excType excMsg
  | ParserRep.configRaise msg => ParseResult.configError (ConfigErr.configurationError msg)
  | ParserRep.keyErrRaise msg => ParseResult.configError (ConfigErr.invalidKeyError msg)

/-- The parser-substitution function of everett.manager (named with an
_fn suffix here): substitute `parse_bool` for the builtin
`bool`, leave every other parser unchanged. -/
def get_parser_fn (p : ParserRep) : ParserRep :=
  match p with
  | ParserRep.bool => ParserRep.parseBool
  | q => q

/-- `everett.manager.build_msg` (the default `msg_builder`). -/
def build_msg (nspace : Option (List String)) (key : Option String)
    (parser : Option ParserRep) (msg : String) (option_doc : String)
    (config_doc : String) : String :=
  -- Python: `if key and parser:` (both non-None, key non-empty)
  let full_key : Option String :=
    match key, parser with
    | some k, some _ => if k ≠ "" then some (generate_uppercase_key k nspace) else none
    | _, _ => none
  let line2 : List String :=
    match full_key, parser with
    | some fk, some p => [fk ++ " requires a value parseable by " ++ p.qualname]
    | _, _ => []
  let line3 : List String :=
    match full_key with
    | some fk => if option_doc ≠ "" then [fk ++ " docs: " ++ option_doc] else []
    | none => []
  let line4 : List String :=
    if config_doc ≠ "" then ["Project docs: " ++ config_doc] else []
  String.intercalate "\n" (([msg] ++ line2 ++ line3 ++ line4).filter (fun line => line ≠ ""))

/-- `everett.manager.Option` descriptor (field `meta` omitted: it is free-form
data never read by the resolution engine). -/
structure OptionCfg where
  default : Option String
  alternate_keys : Option (List String)
  doc : String
  parser : ParserRep
  deriving DecidableEq

/-- A Python class as the option roll-up sees it: its name and, when the
class body declares a nested `Config` holder, that holder's `__dict__`
restricted to its `Option`-valued attributes. -/
structure PyClass where
  name : String
  config : Option (PyDict OptionCfg)
  deriving DecidableEq

/-- A component type given by its method-resolution order, most-derived
class first (as `cls.__mro__` lists it). -/
abbrev MRO := List PyClass

/-- Python attribute lookup of `Config` along an MRO (`subcls.Config`). -/
def resolveConfigAttr : MRO → Option (PyDict OptionCfg)
  | [] => none
  | c :: rest =>
    match c.config with
    | some d => some d
    | none => resolveConfigAttr rest

/-- `everett.manager.get_config_for_class`: iterate `reversed(cls.__mro__)`
(most-base first) and for each class with a `Config` attribute record each
Option under its name, overwriting prior entries (dict semantics), pairing
it with the class being visited. -/
def get_config_for_class : MRO → PyDict (OptionCfg × String)
  | [] => []
  | c :: rest =>
    let options := get_config_for_class rest
    match resolveConfigAttr (c :: rest) with
    | none => options
    | some cfgdict =>
      cfgdict.foldl (fun opts p => dictInsert opts p.1 (p.2, c.name)) options

/-- A configuration source (`environments` list entry).  `dictEnv` holds a
dict of canonical (uppercased) keys; `overrideEnv` is the
`ConfigOverrideEnv` source reading the global override stack. -/
inductive Env where
  | dictEnv (cfg : PyDict String)
  | overrideEnv
  deriving DecidableEq

/-- Whether a source is the `ConfigOverrideEnv` instance check of
`ConfigManager.__init__`. -/
def Env.isOverride : Env → Bool
  | Env.overrideEnv => true
  | _ => false

/-- `env.get(key, namespace)` for the modelled sources, with the global
override stack passed explicitly. -/
def Env.get (stack : OverrideStack) (e : Env) (key : String)
    (nspace : Option (List String)) : Option String :=
  match e with
  | Env.dictEnv cfg => dictGet cfg (generate_uppercase_key key nspace)
  | Env.overrideEnv =>
    -- ConfigOverrideEnv.get: short-circuit on empty stack, else scan the
    -- stack last-pushed first
    if stack.isEmpty then none
    else get_key_from_envs stack.reverse (generate_uppercase_key key nspace)

/-- `ConfigDictEnv(cfg)`: keys are uppercased at construction. -/
def ConfigDictEnv (cfg : PyDict String) : Env :=
  Env.dictEnv (mkDict (cfg.map (fun p => (pyUpper p.1, p.2))))

/-- `everett.manager.ConfigManager` state.  `msg_builder` is fixed to the
default `build_msg`; `original_manager` (a self-reference used only by
`_get_base_config`) is omitted.  The Python attribute
`bound_component_prefix` is named `bound_component_prefix_list` here. -/
structure ConfigManager where
  envs : List Env
  doc : String
  with_override : Bool
  nspace : List String
  bound_component : Option String
  bound_component_prefix_list : List String
  bound_component_options : PyDict (OptionCfg × String)
  deriving DecidableEq

/-- `ConfigManager.__init__(environments, doc, with_override)`: insert the
override source first unless one is already present. -/
def ConfigManager.make (environments : List Env) (doc : String)
    (with_override : Bool) : ConfigManager :=
  let envs :=
    if with_override && !(environments.any Env.isOverride) then
      Env.overrideEnv :: environments
    else environments
  { envs := envs
    doc := doc
    with_override := with_override
    nspace := []
    bound_component := none
    bound_component_prefix_list := []
    bound_component_options := [] }

/-- `ConfigManager.clone`: rebuild via the constructor (same sources since
the override source is already present when enabled), copy namespace and
binding, reset the bound-component key-prefix to `[]`. -/
def ConfigManager.clone (m : ConfigManager) : ConfigManager :=
  let base := ConfigManager.make m.envs m.doc m.with_override
  { base with
    nspace := m.nspace
    bound_component := m.bound_component
    bound_component_options := m.bound_component_options }

/-- `ConfigManager.with_namespace(namespace)`. -/
def ConfigManager.with_namespace (m : ConfigManager) (nspace : List String) :
    ConfigManager :=
  if nspace.isEmpty then m
  else
    let c := m.clone
    if c.bound_component.isSome then
      { c with bound_component_prefix_list := c.bound_component_prefix_list ++ nspace }
    else
      { c with nspace := c.nspace ++ nspace }

/-- `ConfigManager.with_options(component)` for a component class given by
its MRO. -/
def ConfigManager.with_options (m : ConfigManager) (component : MRO) :
    ConfigManager :=
  let options := get_config_for_class component
  if options.isEmpty then m
  else
    let c := m.clone
    let c :=
      { c with
        bound_component := some (match component with | [] => "" | cl :: _ => cl.name)
        bound_component_prefix_list := []
        bound_component_options := options }
    if !m.bound_component_prefix_list.isEmpty then
      { c with nspace := c.nspace ++ m.bound_component_prefix_list }
    else c

/-- The candidate key list: `all_keys = [key]; if alternate_keys: all_keys
= all_keys + alternate_keys`. -/
def buildAllKeys (key : String) (alternate_keys : Option (List String)) :
    List String :=
  match alternate_keys with
  | some alts => if alts.isEmpty then [key] else [key] ++ alts
  | none => [key]

/-- The `use_namespace` chosen for one candidate key: root-anchored keys
drop the namespace. -/
def candidateNs (nspace : List String) (k : String) : Option (List String) :=
  if pyStartsWith k "root:" then none else some nspace

/-- Inner loop of `ConfigManager.__call__`: first source yielding a value
for this candidate key (an empty string counts as no value when
`default_if_empty`). -/
def firstEnvValue (stack : OverrideStack) (envs : List Env)
    (possible_key : String) (use_ns : Option (List String))
    (default_if_empty : Bool) : Option String :=
  match envs with
  | [] => none
  | e :: rest =>
    let val0 := Env.get stack e possible_key use_ns
    let val := if val0 = some "" ∧ default_if_empty then none else val0
    match val with
    | some v => some v
    | none => firstEnvValue stack rest possible_key use_ns default_if_empty

/-- Outer loop of `ConfigManager.__call__` over the candidate keys: first
raw value found, with the `use_namespace` of the candidate that yielded
it.  `root:`-prefixed candidates are stripped and looked up with no
namespace. -/
def findValue (stack : OverrideStack) (envs : List Env) (keys : List String)
    (nspace : List String) (default_if_empty : Bool) :
    Option (String × Option (List String)) :=
  match keys with
  | [] => none
  | k :: rest =>
    let possible_key := if pyStartsWith k "root:" then k.drop 5 else k
    let use_ns := candidateNs nspace k
    match firstEnvValue stack envs possible_key use_ns default_if_empty with
    | some v => some (v, use_ns)
    | none => findValue stack envs rest nspace default_if_empty

/-- The value the Python loop variable `use_namespace` holds after the
candidate loop finishes (the last candidate's namespace choice); the
candidate list is never empty since it starts with the primary key. -/
def lastUseNs (all_keys : List String) (nspace : List String) :
    Option (List String) :=
  match all_keys.getLast? with
  | some k => candidateNs nspace k
  | none => some nspace

/-- Straight-line tail of `ConfigManager.__call__` after bound-component
resolution: parser substitution, candidate-key/source traversal, parse of
the found value or of the default, and the error-or-sentinel policy. -/
def resolveValue (envs : List Env) (config_doc : String)
    (stack : OverrideStack) (key : String) (nspace : List String)
    (default : Option String) (default_if_empty : Bool)
    (alternate_keys : Option (List String)) (doc : String)
    (parser0 : ParserRep) (raise_error : Bool) (raw_value : Bool) :
    LookupResult :=
  -- raw_value=True short-circuits the parser to str; otherwise substitute
  let parser := if raw_value then ParserRep.str else get_parser_fn parser0
  let all_keys := buildAllKeys key alternate_keys
  match findValue stack envs all_keys nspace default_if_empty with
  | some (val, use_ns) =>
    match applyParser parser val with
    | ParseResult.ok v => LookupResult.value v
    | ParseResult.configError e =>
      -- except ConfigurationError: raise  (re-raised unchanged)
      LookupResult.error e
    | ParseResult.pyError excType excMsg =>
      LookupResult.error (ConfigErr.invalidValueError
        (build_msg use_ns (some key) (some parser)
          (excType ++ ": " ++ excMsg) doc config_doc)
        (some nspace) key parser)
  | none =>
    let last_use_ns := lastUseNs all_keys nspace
    match default with
    | some dflt =>
      match applyParser parser dflt with
      | ParseResult.ok v => LookupResult.value v
      | ParseResult.configError e => LookupResult.error e
      | ParseResult.pyError excType excMsg =>
        LookupResult.error (ConfigErr.invalidValueError
          (build_msg last_use_ns (some key) (some parser)
            (excType ++ ": " ++ excMsg ++ " (default value)") doc config_doc)
          (some nspace) key parser)
    | none =>
      if raise_error then
        LookupResult.error (ConfigErr.configurationMissingError
          (build_msg last_use_ns (some key) (some parser) "" doc config_doc)
          (some nspace) key parser)
      else LookupResult.noValue

/-- `ConfigManager.__call__(key, namespace, default, default_if_empty,
alternate_keys, doc, parser, raise_error, raw_value)`.  The check that a
non-sentinel `default` is a string is enforced by the `Option String` type
of `default` here. -/
def ConfigManager.call (m : ConfigManager) (stack : OverrideStack)
    (key : String) (nspace : List String) (default : Option String)
    (default_if_empty : Bool) (alternate_keys : Option (List String))
    (doc : String) (parser : ParserRep) (raise_error : Bool)
    (raw_value : Bool) : LookupResult :=
  match m.bound_component with
  | some _ =>
    -- bound component: caller namespace becomes part of the key prefix,
    -- the manager's accumulated namespace is the lookup namespace
    let key1 := String.intercalate "_"
      (m.bound_component_prefix_list ++ nspace ++ [key])
    match dictGet m.bound_component_options key1 with
    | none =>
      if raise_error then
        LookupResult.error (ConfigErr.invalidKeyError
          (pyRepr key1 ++ " is not a valid key for this component"))
      else LookupResult.pyNone
    | some (opt, _owner) =>
      -- default, alternate_keys, doc, parser come from the Option
      resolveValue m.envs m.doc stack key1 m.nspace opt.default
        default_if_empty opt.alternate_keys opt.doc opt.parser
        raise_error raw_value
  | none =>
    resolveValue m.envs m.doc stack key (m.nspace ++ nspace) default
      default_if_empty alternate_keys doc parser raise_error raw_value

end Everett

namespace Everett

/-- Claim C1: for every ConfigManager lookup, sources are consulted in
registration order with the override-stack source implicitly first: given
two sources where source A has key K and source B (checked first) lacks
it, resolution returns A's value; if B has K, B's value wins regardless of
what A holds. -/
theorem C1_source_order (b a : PyDict String) (key v : String)
    (hroot : pyStartsWith key "root:" = false) :
    (ConfigManager.make [Env.dictEnv b, Env.dictEnv a] "" true).envs =
      [Env.overrideEnv, Env.dictEnv b, Env.dictEnv a] ∧
    (Env.get [] (Env.dictEnv b) key (some []) = none →
     Env.get [] (Env.dictEnv a) key (some []) = some v → v ≠ "" →
     (ConfigManager.make [Env.dictEnv b, Env.dictEnv a] "" true).call
        [] key [] none true none "" ParserRep.str true false =
       LookupResult.value (PyValue.str v)) ∧
    (Env.get [] (Env.dictEnv b) key (some []) = some v → v ≠ "" →
     (ConfigManager.make [Env.dictEnv b, Env.dictEnv a] "" true).call
        [] key [] none true none "" ParserRep.str true false =
       LookupResult.value (PyValue.str v)) := by
  refine ⟨?_, ?_, ?_⟩
  · simp [ConfigManager.make, Env.isOverride]
  · intro hb ha hv
    simp only [Env.get] at hb ha
    simp [ConfigManager.make, ConfigManager.call, resolveValue, get_parser_fn,
      buildAllKeys, findValue, firstEnvValue, candidateNs, hroot, Env.get,
      hb, ha, hv, applyParser]
  · intro hb hv
    simp only [Env.get] at hb
    simp [ConfigManager.make, ConfigManager.call, resolveValue, get_parser_fn,
      buildAllKeys, findValue, firstEnvValue, candidateNs, hroot, Env.get,
      hb, hv, applyParser]

/-- Witness for C1 at concrete sources. -/
theorem C1_source_order_witness :
    (Env.get [] (Env.dictEnv [("OTHER", "1")]) "foo" (some []) = none →
     Env.get [] (Env.dictEnv [("FOO", "fromA")]) "foo" (some []) = some "fromA" →
     "fromA" ≠ "" →
     (ConfigManager.make [Env.dictEnv [("OTHER", "1")], Env.dictEnv [("FOO", "fromA")]] "" true).call
        [] "foo" [] none true none "" ParserRep.str true false =
       LookupResult.value (PyValue.str "fromA")) ∧
    (ConfigManager.make [Env.dictEnv [("OTHER", "1")], Env.dictEnv [("FOO", "fromA")]] "" true).call
        [] "foo" [] none true none "" ParserRep.str true false =
       LookupResult.value (PyValue.str "fromA") := by
  have h := C1_source_order [("OTHER", "1")] [("FOO", "fromA")] "foo" "fromA" (by decide)
  exact ⟨h.2.1, h.2.1 (by decide) (by decide) (by decide)⟩

end Everett

namespace Everett

/-- Claim C2: pushing an override dict for key K makes the lookup return
the override value even when every other registered source also defines K;
nested pushes shadow in LIFO order: after push of x then push of y the
lookup returns y, and after one pop it returns x. -/
theorem C2_override_lifo (cfg : PyDict String) (k : String)
    (hroot : pyStartsWith k "root:" = false) :
    ((ConfigManager.make [Env.dictEnv cfg] "" true).call
        (push_config (push_config [] [(pyUpper k, "x")]) [(pyUpper k, "y")])
        k [] none true none "" ParserRep.str true false =
      LookupResult.value (PyValue.str "y")) ∧
    pop_config (push_config (push_config [] [(pyUpper k, "x")]) [(pyUpper k, "y")]) =
      some (push_config [] [(pyUpper k, "x")]) ∧
    ((ConfigManager.make [Env.dictEnv cfg] "" true).call
        (push_config [] [(pyUpper k, "x")])
        k [] none true none "" ParserRep.str true false =
      LookupResult.value (PyValue.str "x")) := by
  refine ⟨?_, ?_, ?_⟩
  · simp [ConfigManager.make, ConfigManager.call, resolveValue, get_parser_fn,
      buildAllKeys, findValue, firstEnvValue, candidateNs, hroot, Env.get,
      push_config, get_key_from_envs, dictGet, generate_uppercase_key,
      applyParser, List.find?]
  · simp [push_config, pop_config]
  · simp [ConfigManager.make, ConfigManager.call, resolveValue, get_parser_fn,
      buildAllKeys, findValue, firstEnvValue, candidateNs, hroot, Env.get,
      push_config, get_key_from_envs, dictGet, generate_uppercase_key,
      applyParser, List.find?]

/-- Witness for C2 at a concrete key and source. -/
theorem C2_override_lifo_witness :
    ((ConfigManager.make [Env.dictEnv [("FOO", "src")]] "" true).call
        (push_config (push_config [] [(pyUpper "foo", "x")]) [(pyUpper "foo", "y")])
        "foo" [] none true none "" ParserRep.str true false =
      LookupResult.value (PyValue.str "y")) ∧
    pop_config (push_config (push_config [] [(pyUpper "foo", "x")]) [(pyUpper "foo", "y")]) =
      some (push_config [] [(pyUpper "foo", "x")]) ∧
    ((ConfigManager.make [Env.dictEnv [("FOO", "src")]] "" true).call
        (push_config [] [(pyUpper "foo", "x")])
        "foo" [] none true none "" ParserRep.str true false =
      LookupResult.value (PyValue.str "x")) :=
  C2_override_lifo [("FOO", "src")] "foo" (by decide)

/-- Claim C3: the primary key is fully exhausted across all sources before
any alternate key is tried: with FOO_BAR defined in a source and BAD_KEY
in none, the lookup with alternate_keys resolves to FOO_BAR's value; if
BAD_KEY is defined in any source (even a later one than a source holding
FOO_BAR), the primary key's value wins. -/
theorem C3_alternate_keys (c1 c2 : PyDict String) (v : String) :
    ((dictGet c1 "BAD_KEY" = none) → (dictGet c2 "BAD_KEY" = none) →
     (dictGet c1 "FOO_BAR" = none) → (dictGet c2 "FOO_BAR" = some v) → v ≠ "" →
     (ConfigManager.make [Env.dictEnv c1, Env.dictEnv c2] "" true).call
        [] "bad_key" [] none true (some ["FOO_BAR"]) "" ParserRep.str true false =
       LookupResult.value (PyValue.str v)) ∧
    ((dictGet c1 "BAD_KEY" = none) → (dictGet c2 "BAD_KEY" = some v) → v ≠ "" →
     (ConfigManager.make [Env.dictEnv c1, Env.dictEnv c2] "" true).call
        [] "bad_key" [] none true (some ["FOO_BAR"]) "" ParserRep.str true false =
       LookupResult.value (PyValue.str v)) ∧
    ((dictGet c1 "BAD_KEY" = some v) → v ≠ "" →
     (ConfigManager.make [Env.dictEnv c1, Env.dictEnv c2] "" true).call
        [] "bad_key" [] none true (some ["FOO_BAR"]) "" ParserRep.str true false =
       LookupResult.value (PyValue.str v)) := by
  have e1 : generate_uppercase_key "bad_key" (some []) = "BAD_KEY" := by decide
  have e2 : generate_uppercase_key "FOO_BAR" (some []) = "FOO_BAR" := by decide
  have e3 : pyStartsWith "bad_key" "root:" = false := by decide
  have e4 : pyStartsWith "FOO_BAR" "root:" = false := by decide
  refine ⟨?_, ?_, ?_⟩
  · intro h1 h2 h3 h4 hv
    simp [ConfigManager.make, ConfigManager.call, resolveValue, get_parser_fn,
      buildAllKeys, findValue, firstEnvValue, candidateNs, Env.get,
      e1, e2, e3, e4, h1, h2, h3, h4, hv, applyParser]
  · intro h1 h2 hv
    simp [ConfigManager.make, ConfigManager.call, resolveValue, get_parser_fn,
      buildAllKeys, findValue, firstEnvValue, candidateNs, Env.get,
      e1, e2, e3, e4, h1, h2, hv, applyParser]
  · intro h1 hv
    simp [ConfigManager.make, ConfigManager.call, resolveValue, get_parser_fn,
      buildAllKeys, findValue, firstEnvValue, candidateNs, Env.get,
      e1, e2, e3, e4, h1, hv, applyParser]

/-- Witness for C3 at concrete sources. -/
theorem C3_alternate_keys_witness :
    ((ConfigManager.make [Env.dictEnv [("OTHER", "1")], Env.dictEnv [("FOO_BAR", "altval")]] "" true).call
        [] "bad_key" [] none true (some ["FOO_BAR"]) "" ParserRep.str true false =
      LookupResult.value (PyValue.str "altval")) ∧
    ((ConfigManager.make [Env.dictEnv [("FOO_BAR", "early")], Env.dictEnv [("BAD_KEY", "late")]] "" true).call
        [] "bad_key" [] none true (some ["FOO_BAR"]) "" ParserRep.str true false =
      LookupResult.value (PyValue.str "late")) ∧
    ((ConfigManager.make [Env.dictEnv [("BAD_KEY", "primary")], Env.dictEnv [("FOO_BAR", "altval")]] "" true).call
        [] "bad_key" [] none true (some ["FOO_BAR"]) "" ParserRep.str true false =
      LookupResult.value (PyValue.str "primary")) :=
  ⟨(C3_alternate_keys [("OTHER", "1")] [("FOO_BAR", "altval")] "altval").1
      (by decide) (by decide) (by decide) (by decide) (by decide),
   (C3_alternate_keys [("FOO_BAR", "early")] [("BAD_KEY", "late")] "late").2.1
      (by decide) (by decide) (by decide),
   (C3_alternate_keys [("BAD_KEY", "primary")] [("FOO_BAR", "altval")] "primary").2.2
      (by decide) (by decide)⟩

/-- Claim C4: a candidate key starting with the literal "root:" has the
marker stripped and is looked up with no namespace, ignoring the manager's
ambient namespace entirely: inside namespace "foo", the alternate key
"root:common" looks up COMMON (holds for every source dict, in particular
ones that also define FOO_COMMON). -/
theorem C4_root_anchor (cfg : PyDict String) (k v : String)
    (hroot : pyStartsWith k "root:" = false)
    (hmiss : dictGet cfg (generate_uppercase_key k (some ["foo"])) = none)
    (hcommon : dictGet cfg "COMMON" = some v) (hv : v ≠ "") :
    ((ConfigManager.make [Env.dictEnv cfg] "" true).with_namespace ["foo"]).call
        [] k [] none true (some ["root:common"]) "" ParserRep.str true false =
      LookupResult.value (PyValue.str v) := by
  have e1 : pyStartsWith "root:common" "root:" = true := by decide
  have e2 : ("root:common".drop 5) = "common" := by decide
  have e3 : generate_uppercase_key "common" none = "COMMON" := by decide
  simp [ConfigManager.make, ConfigManager.clone, ConfigManager.with_namespace,
    ConfigManager.call, resolveValue, get_parser_fn, buildAllKeys, findValue,
    firstEnvValue, candidateNs, Env.get, Env.isOverride,
    e1, e2, e3, hroot, hmiss, hcommon, hv, applyParser]

/-- Witness for C4 at a concrete source holding both COMMON and FOO_COMMON. -/
theorem C4_root_anchor_witness :
    ((ConfigManager.make [Env.dictEnv [("FOO_COMMON", "nsval"), ("COMMON", "rootval")]] "" true).with_namespace ["foo"]).call
        [] "mykey" [] none true (some ["root:common"]) "" ParserRep.str true false =
      LookupResult.value (PyValue.str "rootval") :=
  C4_root_anchor [("FOO_COMMON", "nsval"), ("COMMON", "rootval")] "mykey" "rootval"
    (by decide) (by decide) (by decide) (by decide)

end Everett

namespace Everett

/-- Claim C5: parser exceptions never escape the resolution engine
unwrapped: when the parser raises on a value found in a source or on the
default, the engine raises InvalidValueError carrying the original
exception's type name and message plus key/doc context -- except when the
parser itself raises a ConfigurationError or one of its subclasses, which
propagates unchanged. -/
theorem C5_parser_errors (m : ConfigManager) (hb : m.bound_component = none)
    (stack : OverrideStack) (key : String) (ns : List String)
    (dflt : Option String) (die : Bool) (alts : Option (List String))
    (doc : String) (p : ParserRep) (re : Bool) (v d : String)
    (ns' : Option (List String)) :
    ((findValue stack m.envs (buildAllKeys key alts) (m.nspace ++ ns) die = some (v, ns')) →
     ∀ excType excMsg, applyParser (get_parser_fn p) v = ParseResult.pyError excType excMsg →
     m.call stack key ns dflt die alts doc p re false =
       LookupResult.error (ConfigErr.invalidValueError
         (build_msg ns' (some key) (some (get_parser_fn p)) (excType ++ ": " ++ excMsg) doc m.doc)
         (some (m.nspace ++ ns)) key (get_parser_fn p))) ∧
    ((findValue stack m.envs (buildAllKeys key alts) (m.nspace ++ ns) die = some (v, ns')) →
     ∀ e, applyParser (get_parser_fn p) v = ParseResult.configError e →
     m.call stack key ns dflt die alts doc p re false = LookupResult.error e) ∧
    ((findValue stack m.envs (buildAllKeys key alts) (m.nspace ++ ns) die = none) →
     ∀ excType excMsg, applyParser (get_parser_fn p) d = ParseResult.pyError excType excMsg →
     m.call stack key ns (some d) die alts doc p re false =
       LookupResult.error (ConfigErr.invalidValueError
         (build_msg (lastUseNs (buildAllKeys key alts) (m.nspace ++ ns)) (some key)
           (some (get_parser_fn p)) (excType ++ ": " ++ excMsg ++ " (default value)") doc m.doc)
         (some (m.nspace ++ ns)) key (get_parser_fn p))) ∧
    ((findValue stack m.envs (buildAllKeys key alts) (m.nspace ++ ns) die = none) →
     ∀ e, applyParser (get_parser_fn p) d = ParseResult.configError e →
     m.call stack key ns (some d) die alts doc p re false = LookupResult.error e) := by
  refine ⟨?_, ?_, ?_, ?_⟩
  · intro h excType excMsg happ
    simp only [ConfigManager.call, hb, resolveValue, Bool.false_eq_true, if_false, h, happ]
  · intro h e happ
    simp only [ConfigManager.call, hb, resolveValue, Bool.false_eq_true, if_false, h, happ]
  · intro h excType excMsg happ
    simp only [ConfigManager.call, hb, resolveValue, Bool.false_eq_true, if_false, h, happ]
  · intro h e happ
    simp only [ConfigManager.call, hb, resolveValue, Bool.false_eq_true, if_false, h, happ]

/-- Claim C6: when no source yields a value for any candidate key and no
default was supplied, the lookup raises ConfigurationMissingError if
raise_error is true and returns the NO_VALUE sentinel if raise_error is
false. -/
theorem C6_missing (m : ConfigManager) (hb : m.bound_component = none)
    (stack : OverrideStack) (key : String) (ns : List String) (die : Bool)
    (alts : Option (List String)) (doc : String) (p : ParserRep) (re : Bool)
    (hnone : findValue stack m.envs (buildAllKeys key alts) (m.nspace ++ ns) die = none) :
    m.call stack key ns none die alts doc p re false =
      if re then
        LookupResult.error (ConfigErr.configurationMissingError
          (build_msg (lastUseNs (buildAllKeys key alts) (m.nspace ++ ns)) (some key)
            (some (get_parser_fn p)) "" doc m.doc)
          (some (m.nspace ++ ns)) key (get_parser_fn p))
      else LookupResult.noValue := by
  simp only [ConfigManager.call, hb, resolveValue, Bool.false_eq_true, if_false, hnone]

end Everett

namespace Everett

/-- Witness for C5: a failing parser on a found value, a
ConfigurationError-subclass-raising parser on a found value, and both on a
default value. -/
theorem C5_parser_errors_witness :
    ((ConfigManager.make [Env.dictEnv [("FOO", "bad")]] "" true).call [] "foo" []
        none true none "" (ParserRep.failing "myparse" "ValueError" "boom") true false =
      LookupResult.error (ConfigErr.invalidValueError
        (build_msg (some []) (some "foo")
          (some (ParserRep.failing "myparse" "ValueError" "boom"))
          ("ValueError" ++ ": " ++ "boom") "" "")
        (some []) "foo" (ParserRep.failing "myparse" "ValueError" "boom"))) ∧
    ((ConfigManager.make [Env.dictEnv [("FOO", "bad")]] "" true).call [] "foo" []
        none true none "" (ParserRep.keyErrRaise "delegated") true false =
      LookupResult.error (ConfigErr.invalidKeyError "delegated")) ∧
    ((ConfigManager.make [] "" true).call [] "foo" []
        (some "dflt") true none "" (ParserRep.failing "myparse" "ValueError" "boom") true false =
      LookupResult.error (ConfigErr.invalidValueError
        (build_msg (some []) (some "foo")
          (some (ParserRep.failing "myparse" "ValueError" "boom"))
          ("ValueError" ++ ": " ++ "boom" ++ " (default value)") "" "")
        (some []) "foo" (ParserRep.failing "myparse" "ValueError" "boom"))) ∧
    ((ConfigManager.make [] "" true).call [] "foo" []
        (some "dflt") true none "" (ParserRep.configRaise "custom") true false =
      LookupResult.error (ConfigErr.configurationError "custom")) :=
  ⟨(C5_parser_errors (ConfigManager.make [Env.dictEnv [("FOO", "bad")]] "" true) rfl
      [] "foo" [] none true none "" (ParserRep.failing "myparse" "ValueError" "boom")
      true "bad" "x" (some [])).1 (by decide) "ValueError" "boom" rfl,
   (C5_parser_errors (ConfigManager.make [Env.dictEnv [("FOO", "bad")]] "" true) rfl
      [] "foo" [] none true none "" (ParserRep.keyErrRaise "delegated")
      true "bad" "x" (some [])).2.1 (by decide) (ConfigErr.invalidKeyError "delegated") rfl,
   (C5_parser_errors (ConfigManager.make [] "" true) rfl
      [] "foo" [] none true none "" (ParserRep.failing "myparse" "ValueError" "boom")
      true "x" "dflt" (some [])).2.2.1 (by decide) "ValueError" "boom" rfl,
   (C5_parser_errors (ConfigManager.make [] "" true) rfl
      [] "foo" [] none true none "" (ParserRep.configRaise "custom")
      true "x" "dflt" (some [])).2.2.2 (by decide) (ConfigErr.configurationError "custom") rfl⟩

/-- Witness for C6 on a manager with no sources. -/
theorem C6_missing_witness :
    ((ConfigManager.make [] "" true).call [] "nokey" [] none true none ""
        ParserRep.str true false =
      LookupResult.error (ConfigErr.configurationMissingError
        (build_msg (some []) (some "nokey") (some ParserRep.str) "" "" "")
        (some []) "nokey" ParserRep.str)) ∧
    ((ConfigManager.make [] "" true).call [] "nokey" [] none true none ""
        ParserRep.str false false =
      LookupResult.noValue) :=
  ⟨C6_missing (ConfigManager.make [] "" true) rfl [] "nokey" [] true none ""
      ParserRep.str true (by decide),
   C6_missing (ConfigManager.make [] "" true) rfl [] "nokey" [] true none ""
      ParserRep.str false (by decide)⟩

end Everett

namespace Everett

/-- The single option (named baz) of the C7 component schema. -/
def bazOpt : OptionCfg :=
  { default := some "bazdefault", alternate_keys := some ["bazalt"],
    doc := "baz doc", parser := ParserRep.str }

/-- MRO of a component class whose option schema declares only key baz. -/
def compC : MRO := [{ name := "C", config := some [("baz", bazOpt)] }]

/-- Claim C7: a manager bound to a component whose option schema declares
only key baz raises InvalidKeyError on lookup of bar (or returns None
without consulting sources when raise_error is false), while lookup of baz
succeeds with default, alternate_keys, doc and parser taken from the
component's Option descriptor. -/
theorem C7_bound_component (cfg : PyDict String)
    (callerDefault : Option String) (callerAlts : Option (List String))
    (callerDoc : String) (callerParser : ParserRep) (re rv : Bool) :
    (((ConfigManager.make [Env.dictEnv cfg] "" true).with_options compC).call
        [] "bar" [] callerDefault true callerAlts callerDoc callerParser true false =
      LookupResult.error (ConfigErr.invalidKeyError
        (pyRepr "bar" ++ " is not a valid key for this component"))) ∧
    (((ConfigManager.make [Env.dictEnv cfg] "" true).with_options compC).call
        [] "bar" [] callerDefault true callerAlts callerDoc callerParser false false =
      LookupResult.pyNone) ∧
    (((ConfigManager.make [Env.dictEnv cfg] "" true).with_options compC).call
        [] "baz" [] callerDefault true callerAlts callerDoc callerParser re rv =
     ((ConfigManager.make [Env.dictEnv cfg] "" true).with_options compC).call
        [] "baz" [] bazOpt.default true bazOpt.alternate_keys bazOpt.doc bazOpt.parser re rv) ∧
    (dictGet cfg "BAZ" = none → dictGet cfg "BAZALT" = none →
     ((ConfigManager.make [Env.dictEnv cfg] "" true).with_options compC).call
        [] "baz" [] callerDefault true callerAlts callerDoc callerParser true false =
      LookupResult.value (PyValue.str "bazdefault")) ∧
    (∀ w, dictGet cfg "BAZ" = none → dictGet cfg "BAZALT" = some w → w ≠ "" →
     ((ConfigManager.make [Env.dictEnv cfg] "" true).with_options compC).call
        [] "baz" [] callerDefault true callerAlts callerDoc callerParser true false =
      LookupResult.value (PyValue.str w)) := by
  have e1 : String.intercalate "_" ["bar"] = "bar" := by decide
  have e2 : String.intercalate "_" ["baz"] = "baz" := by decide
  have e3 : generate_uppercase_key "baz" (some []) = "BAZ" := by decide
  have e4 : generate_uppercase_key "bazalt" (some []) = "BAZALT" := by decide
  have e5 : pyStartsWith "baz" "root:" = false := by decide
  have e6 : pyStartsWith "bazalt" "root:" = false := by decide
  refine ⟨?_, ?_, ?_, ?_, ?_⟩
  · simp [ConfigManager.make, ConfigManager.clone, ConfigManager.with_options,
      ConfigManager.call, get_config_for_class, resolveConfigAttr, compC,
      dictInsert, dictGet, mkDict, e1, List.find?, Env.isOverride]
  · simp [ConfigManager.make, ConfigManager.clone, ConfigManager.with_options,
      ConfigManager.call, get_config_for_class, resolveConfigAttr, compC,
      dictInsert, dictGet, mkDict, e1, List.find?, Env.isOverride]
  · rfl
  · intro h1 h2
    simp only [dictGet] at h1 h2
    have e2b : generate_uppercase_key (String.intercalate "_" ["baz"]) (some []) = "BAZ" := by decide
    simp [ConfigManager.make, ConfigManager.clone, ConfigManager.with_options,
      ConfigManager.call, get_config_for_class, resolveConfigAttr, compC,
      dictInsert, mkDict, e2, e3, e4, e5, e6, List.find?, bazOpt, Env.isOverride,
      resolveValue, get_parser_fn, buildAllKeys, findValue, firstEnvValue,
      candidateNs, Env.get, dictGet, e2b, h1, h2, applyParser]
  · intro w h1 h2 hw
    simp only [dictGet] at h1 h2
    have e2b : generate_uppercase_key (String.intercalate "_" ["baz"]) (some []) = "BAZ" := by decide
    simp [ConfigManager.make, ConfigManager.clone, ConfigManager.with_options,
      ConfigManager.call, get_config_for_class, resolveConfigAttr, compC,
      dictInsert, mkDict, e2, e3, e4, e5, e6, List.find?, bazOpt, Env.isOverride,
      resolveValue, get_parser_fn, buildAllKeys, findValue, firstEnvValue,
      candidateNs, Env.get, dictGet, e2b, h1, h2, hw, applyParser]

end Everett

namespace Everett

/-- Witness for C7 at concrete sources: bar fails (or gives None) even
when a source defines BAR; baz uses the descriptor default and the
descriptor alternate key. -/
theorem C7_bound_component_witness :
    (((ConfigManager.make [Env.dictEnv [("BAR", "present")]] "" true).with_options compC).call
        [] "bar" [] none true none "" ParserRep.str true false =
      LookupResult.error (ConfigErr.invalidKeyError
        (pyRepr "bar" ++ " is not a valid key for this component"))) ∧
    (((ConfigManager.make [Env.dictEnv [("BAR", "present")]] "" true).with_options compC).call
        [] "bar" [] none true none "" ParserRep.str false false =
      LookupResult.pyNone) ∧
    (((ConfigManager.make [Env.dictEnv [("BAR", "present")]] "" true).with_options compC).call
        [] "baz" [] (some "callerdflt") true (some ["ignored"]) "callerdoc"
        (ParserRep.failing "boom" "TypeError" "boom") true false =
     ((ConfigManager.make [Env.dictEnv [("BAR", "present")]] "" true).with_options compC).call
        [] "baz" [] bazOpt.default true bazOpt.alternate_keys bazOpt.doc bazOpt.parser true false) ∧
    (((ConfigManager.make [Env.dictEnv [("BAR", "present")]] "" true).with_options compC).call
        [] "baz" [] none true none "" ParserRep.str true false =
      LookupResult.value (PyValue.str "bazdefault")) ∧
    (((ConfigManager.make [Env.dictEnv [("BAZALT", "altv")]] "" true).with_options compC).call
        [] "baz" [] none true none "" ParserRep.str true false =
      LookupResult.value (PyValue.str "altv")) :=
  ⟨(C7_bound_component [("BAR", "present")] none none "" ParserRep.str true false).1,
   (C7_bound_component [("BAR", "present")] none none "" ParserRep.str true false).2.1,
   (C7_bound_component [("BAR", "present")] (some "callerdflt") (some ["ignored"])
      "callerdoc" (ParserRep.failing "boom" "TypeError" "boom") true false).2.2.1,
   (C7_bound_component [("BAR", "present")] none none "" ParserRep.str true false).2.2.2.1
      (by decide) (by decide),
   (C7_bound_component [("BAZALT", "altv")] none none "" ParserRep.str true false).2.2.2.2
      "altv" (by decide) (by decide) (by decide)⟩

/-- Helper: cloning does not change the source list for a manager whose
override flag, when set, is matched by an override source in the list
(every manager built through the public constructor satisfies this). -/
theorem clone_envs_eq (m : ConfigManager)
    (hov : m.with_override = true → m.envs.any Env.isOverride = true) :
    m.clone.envs = m.envs := by
  unfold ConfigManager.clone ConfigManager.make
  cases h : m.with_override
  · simp
  · simp [hov h]

/-- Claim C8: for every unbound manager, key and namespace ns, calling
with namespace ns and calling through with_namespace ns produce identical
canonical lookup keys and identical results. -/
theorem C8_namespace_composition (m : ConfigManager)
    (hb : m.bound_component = none)
    (hov : m.with_override = true → m.envs.any Env.isOverride = true)
    (ns : List String) (stack : OverrideStack) (key : String)
    (dflt : Option String) (die : Bool) (alts : Option (List String))
    (doc : String) (p : ParserRep) (re rv : Bool) :
    ((m.with_namespace ns).nspace = m.nspace ++ ns) ∧
    (generate_uppercase_key key (some ((m.with_namespace ns).nspace)) =
      generate_uppercase_key key (some (m.nspace ++ ns))) ∧
    ((m.with_namespace ns).call stack key [] dflt die alts doc p re rv =
      m.call stack key ns dflt die alts doc p re rv) := by
  have henvs : m.clone.envs = m.envs := clone_envs_eq m hov
  have hns : (m.with_namespace ns).nspace = m.nspace ++ ns := by
    unfold ConfigManager.with_namespace
    cases hemp : ns.isEmpty
    · simp [hemp, ConfigManager.clone, ConfigManager.make, hb]
    · simp [hemp, List.isEmpty_iff.mp hemp]
  refine ⟨hns, by rw [hns], ?_⟩
  unfold ConfigManager.with_namespace
  cases hemp : ns.isEmpty
  · have hcb : m.clone.bound_component = none := by
      simp [ConfigManager.clone, ConfigManager.make, hb]
    have hcd : m.clone.doc = m.doc := by
      simp [ConfigManager.clone, ConfigManager.make]
    have hcn : m.clone.nspace = m.nspace := by
      simp [ConfigManager.clone, ConfigManager.make]
    simp [hemp, ConfigManager.call, hb, hcb, hcd, hcn, henvs]
  · simp [hemp, List.isEmpty_iff.mp hemp, ConfigManager.call, hb]

end Everett

namespace Everett

/-- A base component class declaring options foo and bar with given
defaults. -/
def baseClassA (da1 da2 : String) : PyClass :=
  { name := "A"
    config := some
      [("foo", { default := some da1, alternate_keys := none, doc := "", parser := ParserRep.str }),
       ("bar", { default := some da2, alternate_keys := none, doc := "", parser := ParserRep.str })] }

/-- A subclass redeclaring only foo with a different default. -/
def subClassB (db : String) : PyClass :=
  { name := "B"
    config := some
      [("foo", { default := some db, alternate_keys := none, doc := "", parser := ParserRep.str })] }

/-- Claim C9: option-schema roll-up walks the hierarchy most-base to
most-derived, overwriting same-named entries so the most-derived
declaration wins: for a base declaring foo and bar and a subclass
redeclaring foo, the rolled-up schema has the subclass foo (in first-seen
position) and the base bar, and resolving an instance of the subclass with
no sources returns the subclass default for foo and the base default for
bar. -/
theorem C9_option_rollup (da1 da2 db : String) :
    (get_config_for_class [subClassB db, baseClassA da1 da2] =
      [("foo", ({ default := some db, alternate_keys := none, doc := "", parser := ParserRep.str }, "B")),
       ("bar", ({ default := some da2, alternate_keys := none, doc := "", parser := ParserRep.str }, "A"))]) ∧
    (((ConfigManager.make [] "" true).with_options [subClassB db, baseClassA da1 da2]).call
        [] "foo" [] none true none "" ParserRep.str true false =
      LookupResult.value (PyValue.str db)) ∧
    (((ConfigManager.make [] "" true).with_options [subClassB db, baseClassA da1 da2]).call
        [] "bar" [] none true none "" ParserRep.str true false =
      LookupResult.value (PyValue.str da2)) := by
  have e1 : String.intercalate "_" ["foo"] = "foo" := by decide
  have e2 : String.intercalate "_" ["bar"] = "bar" := by decide
  refine ⟨?_, ?_, ?_⟩
  · simp [get_config_for_class, resolveConfigAttr, subClassB, baseClassA,
      dictInsert, List.foldl]
  · simp [ConfigManager.make, ConfigManager.clone, ConfigManager.with_options,
      ConfigManager.call, get_config_for_class, resolveConfigAttr, subClassB,
      baseClassA, dictInsert, dictGet, List.find?, List.foldl, e1, e2,
      Env.isOverride, resolveValue, get_parser_fn, buildAllKeys, findValue,
      firstEnvValue, candidateNs, Env.get, applyParser]
  · simp [ConfigManager.make, ConfigManager.clone, ConfigManager.with_options,
      ConfigManager.call, get_config_for_class, resolveConfigAttr, subClassB,
      baseClassA, dictInsert, dictGet, List.find?, List.foldl, e1, e2,
      Env.isOverride, resolveValue, get_parser_fn, buildAllKeys, findValue,
      firstEnvValue, candidateNs, Env.get, applyParser]

/-- Claim C10: when the effective parser is the Python builtin bool, the
engine substitutes parse_bool before parsing: the lookup result equals the
one with parse_bool; found strings in the true/false vocabularies (any
case) parse to True/False and anything else raises InvalidValueError; the
builtin bool (which would map "false" to True by truthiness) is never
applied. -/
theorem C10_bool_substitution (m : ConfigManager) (stack : OverrideStack)
    (key : String) (ns : List String) (dflt : Option String) (die : Bool)
    (alts : Option (List String)) (doc : String) (re rv : Bool)
    (cfg : PyDict String) (k v : String)
    (hroot : pyStartsWith k "root:" = false)
    (hfound : dictGet cfg (generate_uppercase_key k (some [])) = some v)
    (hv : v ≠ "") :
    (m.call stack key ns dflt die alts doc ParserRep.bool re rv =
      m.call stack key ns dflt die alts doc ParserRep.parseBool re rv) ∧
    (pyLower v ∈ true_vals →
     (ConfigManager.make [Env.dictEnv cfg] "" true).call [] k [] none true none ""
        ParserRep.bool true false = LookupResult.value (PyValue.bool true)) ∧
    (pyLower v ∉ true_vals → pyLower v ∈ false_vals →
     (ConfigManager.make [Env.dictEnv cfg] "" true).call [] k [] none true none ""
        ParserRep.bool true false = LookupResult.value (PyValue.bool false)) ∧
    (pyLower v ∉ true_vals → pyLower v ∉ false_vals →
     (ConfigManager.make [Env.dictEnv cfg] "" true).call [] k [] none true none ""
        ParserRep.bool true false =
       LookupResult.error (ConfigErr.invalidValueError
         (build_msg (some []) (some k) (some ParserRep.parseBool)
           ("ValueError" ++ ": " ++ (pyRepr (pyLower v) ++ " is not a valid bool value")) "" "")
         (some []) k ParserRep.parseBool)) ∧
    (applyParser ParserRep.bool "false" = ParseResult.ok (PyValue.bool true)) := by
  refine ⟨?_, ?_, ?_, ?_, by decide⟩
  · cases hb : m.bound_component with
    | some c => simp [ConfigManager.call, hb]
    | none => cases rv <;> simp [ConfigManager.call, hb, resolveValue, get_parser_fn]
  · intro ht
    simp only [dictGet] at hfound
    simp [ConfigManager.make, ConfigManager.call, resolveValue, get_parser_fn,
      buildAllKeys, findValue, firstEnvValue, candidateNs, Env.get, dictGet,
      hroot, hfound, hv, applyParser, parse_bool, ht]
  · intro ht hf
    simp only [dictGet] at hfound
    simp [ConfigManager.make, ConfigManager.call, resolveValue, get_parser_fn,
      buildAllKeys, findValue, firstEnvValue, candidateNs, Env.get, dictGet,
      hroot, hfound, hv, applyParser, parse_bool, ht, hf]
  · intro ht hf
    simp only [dictGet] at hfound
    simp [ConfigManager.make, ConfigManager.call, resolveValue, get_parser_fn,
      buildAllKeys, findValue, firstEnvValue, candidateNs, Env.get, dictGet,
      hroot, hfound, hv, applyParser, parse_bool, ht, hf]

end Everett

namespace Everett

/-- Witness for C8 at a concrete manager, namespace and key. -/
theorem C8_namespace_composition_witness :
    (((ConfigManager.make [Env.dictEnv [("DB_USER", "admin")]] "" true).with_namespace ["db"]).nspace =
      (ConfigManager.make [Env.dictEnv [("DB_USER", "admin")]] "" true).nspace ++ ["db"]) ∧
    (generate_uppercase_key "user"
        (some (((ConfigManager.make [Env.dictEnv [("DB_USER", "admin")]] "" true).with_namespace ["db"]).nspace)) =
      generate_uppercase_key "user"
        (some ((ConfigManager.make [Env.dictEnv [("DB_USER", "admin")]] "" true).nspace ++ ["db"]))) ∧
    (((ConfigManager.make [Env.dictEnv [("DB_USER", "admin")]] "" true).with_namespace ["db"]).call
        [] "user" [] none true none "" ParserRep.str true false =
      (ConfigManager.make [Env.dictEnv [("DB_USER", "admin")]] "" true).call
        [] "user" ["db"] none true none "" ParserRep.str true false) :=
  C8_namespace_composition (ConfigManager.make [Env.dictEnv [("DB_USER", "admin")]] "" true)
    rfl (by decide) ["db"] [] "user" none true none "" ParserRep.str true false

/-- Witness for C10 on concrete flags "on", "False", "maybe". -/
theorem C10_bool_substitution_witness :
    ((ConfigManager.make [] "" true).call [] "x" [] none true none ""
        ParserRep.bool true false =
      (ConfigManager.make [] "" true).call [] "x" [] none true none ""
        ParserRep.parseBool true false) ∧
    ((ConfigManager.make [Env.dictEnv [("FLAG", "on")]] "" true).call [] "flag" []
        none true none "" ParserRep.bool true false =
      LookupResult.value (PyValue.bool true)) ∧
    ((ConfigManager.make [Env.dictEnv [("FLAG", "False")]] "" true).call [] "flag" []
        none true none "" ParserRep.bool true false =
      LookupResult.value (PyValue.bool false)) ∧
    ((ConfigManager.make [Env.dictEnv [("FLAG", "maybe")]] "" true).call [] "flag" []
        none true none "" ParserRep.bool true false =
      LookupResult.error (ConfigErr.invalidValueError
        (build_msg (some []) (some "flag") (some ParserRep.parseBool)
          ("ValueError" ++ ": " ++ (pyRepr (pyLower "maybe") ++ " is not a valid bool value")) "" "")
        (some []) "flag" ParserRep.parseBool)) :=
  ⟨(C10_bool_substitution (ConfigManager.make [] "" true) [] "x" [] none true none "" true false
      [("FLAG", "on")] "flag" "on" (by decide) (by decide) (by decide)).1,
   (C10_bool_substitution (ConfigManager.make [] "" true) [] "x" [] none true none "" true false
      [("FLAG", "on")] "flag" "on" (by decide) (by decide) (by decide)).2.1 (by decide),
   (C10_bool_substitution (ConfigManager.make [] "" true) [] "x" [] none true none "" true false
      [("FLAG", "False")] "flag" "False" (by decide) (by decide) (by decide)).2.2.1
      (by decide) (by decide),
   (C10_bool_substitution (ConfigManager.make [] "" true) [] "x" [] none true none "" true false
      [("FLAG", "maybe")] "flag" "maybe" (by decide) (by decide) (by decide)).2.2.2.1
      (by decide) (by decide)⟩

end Everett
